import Mathlib

/-!
Verification of the row-validation-and-amount-computation pipeline of
`src/bot/main.py` (spreadsheet-driven loan-reminder dispatcher).

The helpers `to_num`, `clean_mobile`, `fmt_amt`, `build_msg` and the row loop
of `handle_file` (lines 101-141) are embedded shallowly.  Numeric cells and
all amounts are modelled as exact rationals (every numeric value appearing in
the specification is exactly representable, e.g. 1234.5, 1000.25, so the
rational model agrees with Python floats on all inputs considered).  The
delivery gateway (`send_whatsapp`) is an external collaborator and is
abstracted as a function argument returning the decoded JSON response,
represented by whether an "error" key is present and its text.
-/

namespace WtsapReminder

/-- A spreadsheet cell as obtained through `row.get(...)`: Python `None`
(missing column / null), a text value, or a numeric value (modelled as an
exact rational). -/
inductive Cell where
  | null : Cell
  | str : String → Cell
  | num : ℚ → Cell
deriving DecidableEq

/-- Python truthiness of a cell, as used by `row.get(...) or default`:
`None`, the empty string and `0` are falsy, everything else truthy. -/
def Cell.truthy : Cell → Bool
  | .null => false
  | .str s => s != ""
  | .num q => q != 0

/-- Floor of a rational, `q.num` floor-divided by `q.den`. -/
def ratFloor (q : ℚ) : ℤ := Int.fdiv q.num (q.den : ℤ)

/-- The two-decimal rendering performed by the Python format `f"\x7bx:.2f\x7d"`:
sign, integer part, a dot, and exactly two digit characters.  Rounding is
modelled as floor(x*100 + 1/2) on the exact rational; every amount the
specification exercises is exact at two decimals, so the rounding mode is
immaterial for the claims. -/
def fmtTwoDec (x : ℚ) : String :=
  let n : ℤ := ratFloor (x * 100 + 1 / 2)
  let a : ℕ := n.natAbs
  ((if n < 0 then "-" else "") ++ toString (a / 100)) ++ "." ++
    String.mk [Nat.digitChar (a / 10 % 10), Nat.digitChar (a % 10)]

/-- `fmt_amt` (main.py lines 48-53): an integral value renders as a plain
integer string (`str(int(x))`), any other value with exactly two decimal
places.  The argument is already numeric in every call site of the row loop,
so the `float(x)` conversion always succeeds and the `except` branch
returning "0" is unreachable in this model. -/
def fmt_amt (x : ℚ) : String :=
  if x.den = 1 then toString x.num else fmtTwoDec x

/-- Python `str()` of a cell value.  `str(None) = "None"`; text cells are
unchanged; float cells render integers with a trailing ".0" as Python does.
(The shortest-repr rendering Python uses for non-integral floats is not
modelled — the two-decimal rendering stands in — and no claim depends on
it.) -/
def pyStr : Cell → String
  | .null => "None"
  | .str s => s
  | .num q => if q.den = 1 then toString q.num ++ ".0" else fmtTwoDec q

/-- Python `cell or default` with a string default, as applied to the
stringified cell inside the message f-string: the cell's text if the cell is
truthy, otherwise the default literal. -/
def pyOr (c : Cell) (dflt : String) : String :=
  if c.truthy then pyStr c else dflt

/-- The digit characters left after `re.sub(r"\D", "", s)`. -/
def digitsOf (s : String) : List Char := s.data.filter fun c => c.isDigit

/-- `clean_mobile` (main.py lines 40-46): strip non-digits; if the digit
string starts with "91" and has length 12 keep the last ten characters
(`s[-10:]`); accept exactly when ten digits remain and the first is
6, 7, 8 or 9. -/
def clean_mobile (m : String) : Option String :=
  let s0 := digitsOf m
  let s := if s0.take 2 = ['9', '1'] ∧ s0.length = 12 then s0.drop (s0.length - 10) else s0
  if s.length = 10 ∧ (s.headI = '6' ∨ s.headI = '7' ∨ s.headI = '8' ∨ s.headI = '9')
  then some (String.mk s) else none

/-- Follows the words of claim C1 (spec §4.1 step 1): strip every non-digit;
if the remaining digit string starts with "91" and is exactly 12 digits long,
drop the leading two digits; the result is valid exactly when it is ten
digits long and its first digit is one of 6, 7, 8, 9. -/
def cleanMobileSpec (m : String) : Option String :=
  let s0 := digitsOf m
  let s := if s0.take 2 = ['9', '1'] ∧ s0.length = 12 then s0.drop 2 else s0
  if s.length = 10 ∧ (s.headI = '6' ∨ s.headI = '7' ∨ s.headI = '8' ∨ s.headI = '9')
  then some (String.mk s) else none

/-- Value of a run of digit characters, most significant first. -/
def digitsVal (l : List Char) : ℕ := l.foldl (fun a c => 10 * a + (c.toNat - 48)) 0

/-- Python `float()` on the decimal shapes this pipeline can see: optional
sign, optional integer part, optional fractional part (at least one digit
overall), optional exponent; anything else fails.  (`inf`/`nan` literals and
underscore digit separators are not modelled; no claim involves them.) -/
def pyFloat (s : String) : Option ℚ :=
  let p : ℚ × List Char :=
    match s.data with
    | '+' :: t => (1, t)
    | '-' :: t => (-1, t)
    | t => (1, t)
  let sgn := p.1
  let ip := p.2.takeWhile fun c => c.isDigit
  let l2 := p.2.dropWhile fun c => c.isDigit
  let fp : List Char :=
    match l2 with
    | '.' :: t => t.takeWhile fun c => c.isDigit
    | _ => []
  let l3 : List Char :=
    match l2 with
    | '.' :: t => t.dropWhile fun c => c.isDigit
    | t => t
  if ip.length = 0 ∧ fp.length = 0 then none
  else
    let mant : ℚ := (digitsVal ip : ℚ) + (digitsVal fp : ℚ) / ((10 : ℚ) ^ fp.length)
    match l3 with
    | [] => some (sgn * mant)
    | c :: t =>
      if c = 'e' ∨ c = 'E' then
        let q : ℤ × List Char :=
          match t with
          | '+' :: t2 => (1, t2)
          | '-' :: t2 => (-1, t2)
          | t2 => (1, t2)
        let ed := q.2.takeWhile fun c => c.isDigit
        let l4 := q.2.dropWhile fun c => c.isDigit
        if ed.length = 0 ∨ l4 ≠ [] then none
        else some (sgn * mant * (10 : ℚ) ^ (q.1 * (digitsVal ed : ℤ)))
      else none

/-- `s.replace(",", "")` for the single-character pattern: drop every comma. -/
def removeCommas (s : String) : String := String.mk (s.data.filter fun c => c != ',')

/-- Python `str.strip()`: remove leading and trailing whitespace. -/
def pyStrip (s : String) : String :=
  String.mk (((s.data.dropWhile Char.isWhitespace).reverse.dropWhile Char.isWhitespace).reverse)

/-- `to_num` (main.py lines 32-38): a null cell (`pd.isna`) gives 0;
otherwise stringify, remove commas, strip whitespace and parse as a float,
with any parse failure giving 0.  A numeric cell round-trips exactly through
`str`/`float`, modelled as the identity on the rational value. -/
def to_num (x : Cell) : ℚ :=
  match x with
  | .null => 0
  | .num q => q
  | .str s =>
    match pyFloat (pyStrip (removeCommas s)) with
    | some q => q
    | none => 0

/-- `build_msg` (main.py lines 55-65): the fixed reminder template. -/
def build_msg (name loan_no : String) (advance edi overdue payable : ℚ)
    (link : String) : String :=
  "👋 ప్రియమైన " ++ name ++ " గారు,\n" ++
  "మీ Veritas Finance లో ఉన్న " ++ loan_no ++ " లోన్ నంబరుకు పెండింగ్ అమౌంట్ వివరాలు:\n\n" ++
  "💸 అడ్వాన్స్ మొత్తం: ₹" ++ fmt_amt advance ++ "\n" ++
  "📌 ఈడీ మొత్తం: ₹" ++ fmt_amt edi ++ "\n" ++
  "🔴 ఓవర్‌డ్యూ మొత్తం: ₹" ++ fmt_amt overdue ++ "\n" ++
  "✅ చెల్లించవలసిన మొత్తం: ₹" ++ fmt_amt payable ++ "\n\n" ++
  "⚠️ దయచేసి వెంటనే చెల్లించండి, లేకపోతే పెనాల్టీలు మరియు CIBIL స్కోర్‌పై ప్రభావం పడుతుంది.\n" ++
  "🔗 చెల్లించడానికి లింక్: " ++ link

/-- The fields of a spreadsheet row the loop reads through `row.get`, after
header normalisation (lower-cased, non-breaking spaces replaced).  A missing
column or missing value is `Cell.null`.  Order: mobile no, over due,
edi amount, advance, customer name, loan a/c no. -/
structure Row where
  mobileNo : Cell
  overDue : Cell
  ediAmount : Cell
  advance : Cell
  customerName : Cell
  loanAcNo : Cell
deriving DecidableEq

/-- The decoded JSON response of the delivery gateway, as far as the loop
inspects it: whether an "error" key is present, and its text. -/
structure Resp where
  error : Option String
deriving DecidableEq

/-- A constant-response delivery sink, for concrete instances. -/
def sinkOf (r : Option String) : String → String → Resp := fun _ _ => ⟨r⟩

/-- Line 115: `payable = (edi_amt + od - adv_amt)` with the three operands
coerced by `to_num` (lines 111-113). -/
def payableOf (row : Row) : ℚ :=
  to_num row.ediAmount + to_num row.overDue - to_num row.advance

/-- Lines 120-125: the message built for a row, with the Python
`or`-defaulting of name and loan number. -/
def msgOf (link : String) (row : Row) : String :=
  build_msg (pyOr row.customerName "Customer") (pyOr row.loanAcNo "—")
    (to_num row.advance) (to_num row.ediAmount) (to_num row.overDue)
    (payableOf row) link

/-- The success log line of line 133. -/
def sentLine (name mobile : String) : String :=
  "✅ " ++ name ++ " | " ++ mobile ++ " | Sent"

/-- The failure log line of lines 129 and 136. -/
def errLine (name mobile reason : String) : String :=
  "❌ " ++ name ++ " | " ++ mobile ++ " | Error: " ++ reason

/-- The effect one row has on the batch state: increments of the two
counters and the log lines appended. -/
structure RowDelta where
  sentInc : ℕ
  skipInc : ℕ
  logs : List String
deriving DecidableEq

/-- The body of the row loop (lines 106-133): invalid mobile → silent skip;
non-positive payable → silent skip; otherwise send and record a ✅ line, or a
❌ line when the sink response carries an "error" key.  Log lines stringify
the raw `customer name` cell (no defaulting). -/
def rowBody (link : String) (sink : String → String → Resp) (row : Row) : RowDelta :=
  match clean_mobile (pyStr row.mobileNo) with
  | none => ⟨0, 1, []⟩
  | some mobile_num =>
    if payableOf row ≤ 0 then ⟨0, 1, []⟩
    else
      match (sink mobile_num (msgOf link row)).error with
      | some err => ⟨0, 1, [errLine (pyStr row.customerName) mobile_num err]⟩
      | none => ⟨1, 0, [sentLine (pyStr row.customerName) mobile_num]⟩

/-- One iteration of the loop including the `except` clause of lines
135-137.  A batch input pairs each row with an optional unexpected-exception
message: `some e` models the Python runtime raising `e` inside the per-row
`try` block (during the computation, before any counter or log update), upon
which the handler records a ❌ line with the raw name and raw mobile cells
and counts a skip. -/
def rowDelta (link : String) (sink : String → String → Resp)
    (r : Row × Option String) : RowDelta :=
  match r.2 with
  | some e => ⟨0, 1, [errLine (pyStr r.1.customerName) (pyStr r.1.mobileNo) e]⟩
  | none => rowBody link sink r.1

/-- The running state of the batch: the two counters and the accumulated
`log_lines`. -/
structure BatchState where
  sent : ℕ
  skip : ℕ
  logs : List String
deriving DecidableEq

/-- Folding one row into the batch state. -/
def rowStep (link : String) (sink : String → String → Resp)
    (st : BatchState) (r : Row × Option String) : BatchState :=
  let d := rowDelta link sink r
  ⟨st.sent + d.sentInc, st.skip + d.skipInc, st.logs ++ d.logs⟩

/-- The report header placed in `log_lines` before the loop (line 102). -/
def header : String := "📊 *WhatsApp Sending Report*"

/-- `handle_file` core loop (lines 101-137): counters start at zero, the log
starts with the header, rows are folded in input order. -/
def handle_file (link : String) (sink : String → String → Resp)
    (rows : List (Row × Option String)) : BatchState :=
  rows.foldl (rowStep link sink) ⟨0, 0, [header]⟩

/-- The total contribution of a list of rows, starting from nothing. -/
def batchDelta (link : String) (sink : String → String → Resp) :
    List (Row × Option String) → BatchState
  | [] => ⟨0, 0, []⟩
  | r :: rs =>
    let d := rowDelta link sink r
    let st := batchDelta link sink rs
    ⟨d.sentInc + st.sent, d.skipInc + st.skip, d.logs ++ st.logs⟩

/-- Modelled from the spec (§4.1 step 4): the two historical eligibility
variants, exposed as an explicit configuration flag.  Only Variant B appears
in src/bot/main.py; Variant A is modelled from the spec's words. -/
inductive Variant where
  | A : Variant
  | B : Variant
deriving DecidableEq

/-- Modelled from the spec: Variant A ("overdue-gated") skips when
overdue ≤ 0 and additionally when payable ≤ 0; Variant B ("payable-only")
skips exactly when payable ≤ 0, which is the behaviour of main.py lines
116-118. -/
def eligible (v : Variant) (od payable : ℚ) : Bool :=
  match v with
  | .A => decide (0 < od) && decide (0 < payable)
  | .B => decide (0 < payable)

/-- Modelled from the spec: the row body parameterised by the eligibility
variant flag.  With `Variant.B` this coincides with `rowBody`, the code in
src (proved in the C4 theorem). -/
def rowBodyV (v : Variant) (link : String) (sink : String → String → Resp)
    (row : Row) : RowDelta :=
  match clean_mobile (pyStr row.mobileNo) with
  | none => ⟨0, 1, []⟩
  | some mobile_num =>
    if eligible v (to_num row.overDue) (payableOf row) then
      match (sink mobile_num (msgOf link row)).error with
      | some err => ⟨0, 1, [errLine (pyStr row.customerName) mobile_num err]⟩
      | none => ⟨1, 0, [sentLine (pyStr row.customerName) mobile_num]⟩
    else ⟨0, 1, []⟩

/-! ## Helper lemmas -/

theorem digitChar_isDigit (n : ℕ) (h : n < 10) : (Nat.digitChar n).isDigit = true := by
  interval_cases n <;> rfl

theorem validShape (s : List Char) (r : String)
    (h : (if s.length = 10 ∧ (s.headI = '6' ∨ s.headI = '7' ∨ s.headI = '8' ∨ s.headI = '9')
      then some (String.mk s) else none) = some r) :
    r.data.length = 10 ∧ r.data.headI ∈ (['6', '7', '8', '9'] : List Char) := by
  split at h
  · rename_i hcond
    cases Option.some.inj h
    refine ⟨hcond.1, ?_⟩
    rcases hcond.2 with h6 | h6 | h6 | h6 <;> simp [h6]
  · cases h

/-- A row with phone, overdue, EDI and advance exercising the numeric
coercions: overdue "1,000" (comma), EDI numeric 500, advance " 200 "
(whitespace). -/
def rowC3 : Row := ⟨.str "9876543210", .str "1,000", .num 500, .str " 200 ", .null, .null⟩

theorem payableOf_rowC3 : payableOf rowC3 = 1300 := by
  show (500 : ℚ) + (1 : ℚ) * (((1000 : ℕ) : ℚ) + ((0 : ℕ) : ℚ) / (10 : ℚ) ^ (0 : ℕ)) -
      (1 : ℚ) * (((200 : ℕ) : ℚ) + ((0 : ℕ) : ℚ) / (10 : ℚ) ^ (0 : ℕ)) = 1300
  norm_num

theorem fmt_amt_1300 : fmt_amt 1300 = "1300" := by
  rw [fmt_amt, if_pos (by norm_num : ((1300 : ℚ)).den = 1),
    (by norm_num : ((1300 : ℚ)).num = 1300)]
  decide

/-! ## Claims C1, C2, C3, C6 -/

/-- C1: for every raw mobile input, `clean_mobile` strips every non-digit,
drops the leading two digits of a 12-digit string starting with "91", and
returns the result exactly when it is ten digits long starting with 6/7/8/9
(proved as equality with `cleanMobileSpec`, the claim verbatim, plus the
shape of every accepted value); "+91 98765 43210" normalizes to
"9876543210", and fewer than ten digits after stripping is always invalid. -/
theorem C1_clean_mobile :
    (∀ m : String, clean_mobile m = cleanMobileSpec m) ∧
    (∀ m r, clean_mobile m = some r →
      r.data.length = 10 ∧ r.data.headI ∈ (['6', '7', '8', '9'] : List Char)) ∧
    (∀ m : String, (digitsOf m).length < 10 → clean_mobile m = none) ∧
    clean_mobile "+91 98765 43210" = some "9876543210" := by
  refine ⟨?_, ?_, ?_, by decide⟩
  · intro m
    by_cases h : (digitsOf m).take 2 = ['9', '1'] ∧ (digitsOf m).length = 12
    · simp only [clean_mobile, cleanMobileSpec, if_pos h, h.2]
    · simp only [clean_mobile, cleanMobileSpec, if_neg h]
  · intro m r h
    simp only [clean_mobile] at h
    exact validShape _ r h
  · intro m h
    have h2 : ¬((digitsOf m).take 2 = ['9', '1'] ∧ (digitsOf m).length = 12) := by
      rintro ⟨-, h12⟩; omega
    simp only [clean_mobile, if_neg h2]
    rw [if_neg]
    rintro ⟨h10, -⟩; omega

/-- C1 witness: "99999999" has eight digits after stripping, hence invalid;
instantiates the universally-quantified parts of the C1 theorem. -/
theorem C1_clean_mobile_witness :
    clean_mobile "99999999" = cleanMobileSpec "99999999" ∧
    clean_mobile "99999999" = none := by
  refine ⟨C1_clean_mobile.1 "99999999", C1_clean_mobile.2.2.1 "99999999" (by decide)⟩

/-- C2: `to_num` is total: a null cell gives 0, "1,234.50" parses to 1234.5
after comma removal, "abc" fails to parse and gives 0, and every parse
failure gives 0 instead of an error. -/
theorem C2_to_num :
    to_num Cell.null = 0 ∧
    to_num (Cell.str "1,234.50") = 1234.5 ∧
    to_num (Cell.str "abc") = 0 ∧
    (∀ s : String, pyFloat (pyStrip (removeCommas s)) = none → to_num (Cell.str s) = 0) := by
  refine ⟨rfl, ?_, by decide, ?_⟩
  · show (1 : ℚ) * (((1234 : ℕ) : ℚ) + ((50 : ℕ) : ℚ) / (10 : ℚ) ^ (2 : ℕ)) = 1234.5
    norm_num
  · intro s h
    simp only [to_num, h]

/-- C2 witness: the parse-failure clause of the C2 theorem applied to the
concrete non-numeric input "12x". -/
theorem C2_to_num_witness : to_num (Cell.str "12x") = 0 :=
  C2_to_num.2.2.2 "12x" (by decide)

/-- C3: the payable amount is computed as edi + overdue - advance for every
row, and the example overdue=1000, edi=500, advance=200 gives 1300, which
formats as the plain integer string "1300". -/
theorem C3_payable :
    (∀ row : Row, payableOf row =
      to_num row.ediAmount + to_num row.overDue - to_num row.advance) ∧
    payableOf rowC3 = 1300 ∧
    fmt_amt (payableOf rowC3) = "1300" := by
  refine ⟨fun _ => rfl, payableOf_rowC3, ?_⟩
  rw [payableOf_rowC3]
  exact fmt_amt_1300

/-- C6: `fmt_amt` renders an integral value as a plain integer string and
any other value with a dot followed by exactly two digit characters;
1300 formats as "1300" and 1000.25 as "1000.25". -/
theorem C6_fmt_amt :
    (∀ x : ℚ, x.den = 1 → fmt_amt x = toString x.num) ∧
    (∀ x : ℚ, x.den ≠ 1 → ∃ pre s, fmt_amt x = pre ++ "." ++ s ∧
      s.length = 2 ∧ s.data.all Char.isDigit = true) ∧
    fmt_amt 1300 = "1300" ∧
    fmt_amt (1000.25 : ℚ) = "1000.25" := by
  refine ⟨?_, ?_, fmt_amt_1300, ?_⟩
  · intro x h
    simp [fmt_amt, h]
  · intro x h
    refine ⟨(if ratFloor (x * 100 + 1 / 2) < 0 then "-" else "") ++
        toString ((ratFloor (x * 100 + 1 / 2)).natAbs / 100),
      String.mk [Nat.digitChar ((ratFloor (x * 100 + 1 / 2)).natAbs / 10 % 10),
        Nat.digitChar ((ratFloor (x * 100 + 1 / 2)).natAbs % 10)], ?_, rfl, ?_⟩
    · simp only [fmt_amt, if_neg h, fmtTwoDec]
    · show ([Nat.digitChar ((ratFloor (x * 100 + 1 / 2)).natAbs / 10 % 10),
        Nat.digitChar ((ratFloor (x * 100 + 1 / 2)).natAbs % 10)].all Char.isDigit) = true
      have h1 := digitChar_isDigit ((ratFloor (x * 100 + 1 / 2)).natAbs / 10 % 10)
        (Nat.mod_lt _ (by norm_num))
      have h2 := digitChar_isDigit ((ratFloor (x * 100 + 1 / 2)).natAbs % 10)
        (Nat.mod_lt _ (by norm_num))
      simp only [List.all_cons, List.all_nil]
      rw [h1, h2]
      rfl
  · rw [fmt_amt, if_neg (by norm_num : ¬((1000.25 : ℚ)).den = 1), fmtTwoDec]
    rw [show ratFloor ((1000.25 : ℚ) * 100 + 1 / 2) = 100025 by
      rw [ratFloor, (by norm_num : ((1000.25 : ℚ) * 100 + 1 / 2).num = 200051),
        (by norm_num : ((1000.25 : ℚ) * 100 + 1 / 2).den = 2)]
      decide]
    decide

/-- C6 witness: the two hypothesis-bearing clauses of the C6 theorem applied
at the integral value 7 and the non-integral value 5/2. -/
theorem C6_fmt_amt_witness :
    fmt_amt 7 = toString ((7 : ℚ)).num ∧
    (∃ pre s, fmt_amt (5 / 2 : ℚ) = pre ++ "." ++ s ∧
      s.length = 2 ∧ s.data.all Char.isDigit = true) :=
  ⟨C6_fmt_amt.1 7 (by norm_num), C6_fmt_amt.2.1 (5 / 2) (by norm_num)⟩

/-! ## Row and batch lemmas -/

theorem rowBody_invalid (link : String) (sink : String → String → Resp) (row : Row)
    (hm : clean_mobile (pyStr row.mobileNo) = none) :
    rowBody link sink row = ⟨0, 1, []⟩ := by
  unfold rowBody
  rw [hm]

theorem rowBody_notEligible (link : String) (sink : String → String → Resp) (row : Row)
    (m : String) (hm : clean_mobile (pyStr row.mobileNo) = some m)
    (hp : payableOf row ≤ 0) :
    rowBody link sink row = ⟨0, 1, []⟩ := by
  unfold rowBody
  rw [hm]
  simp only [if_pos hp]

theorem rowBody_sent (link : String) (sink : String → String → Resp) (row : Row)
    (m : String) (hm : clean_mobile (pyStr row.mobileNo) = some m)
    (hp : ¬payableOf row ≤ 0) (hs : (sink m (msgOf link row)).error = none) :
    rowBody link sink row = ⟨1, 0, [sentLine (pyStr row.customerName) m]⟩ := by
  unfold rowBody
  rw [hm]
  simp only [if_neg hp, hs]

theorem rowBody_delivErr (link : String) (sink : String → String → Resp) (row : Row)
    (m err : String) (hm : clean_mobile (pyStr row.mobileNo) = some m)
    (hp : ¬payableOf row ≤ 0) (hs : (sink m (msgOf link row)).error = some err) :
    rowBody link sink row = ⟨0, 1, [errLine (pyStr row.customerName) m err]⟩ := by
  unfold rowBody
  rw [hm]
  simp only [if_neg hp, hs]

theorem rowDelta_count (link : String) (sink : String → String → Resp)
    (r : Row × Option String) :
    (rowDelta link sink r).sentInc + (rowDelta link sink r).skipInc = 1 := by
  obtain ⟨row, exc⟩ := r
  cases exc with
  | some e => rfl
  | none =>
    show (rowBody link sink row).sentInc + (rowBody link sink row).skipInc = 1
    cases hcm : clean_mobile (pyStr row.mobileNo) with
    | none => rw [rowBody_invalid link sink row hcm]; rfl
    | some m =>
      by_cases hp : payableOf row ≤ 0
      · rw [rowBody_notEligible link sink row m hcm hp]; rfl
      · cases hs : (sink m (msgOf link row)).error with
        | none => rw [rowBody_sent link sink row m hcm hp hs]; rfl
        | some err => rw [rowBody_delivErr link sink row m err hcm hp hs]; rfl

theorem foldl_rowStep (link : String) (sink : String → String → Resp)
    (rows : List (Row × Option String)) :
    ∀ st : BatchState, rows.foldl (rowStep link sink) st =
      ⟨st.sent + (batchDelta link sink rows).sent,
       st.skip + (batchDelta link sink rows).skip,
       st.logs ++ (batchDelta link sink rows).logs⟩ := by
  induction rows with
  | nil => intro st; cases st; simp [batchDelta]
  | cons r rs ih =>
    intro st
    cases st
    simp only [List.foldl_cons, ih, batchDelta, rowStep]
    simp [Nat.add_assoc, List.append_assoc]

theorem handle_file_eq (link : String) (sink : String → String → Resp)
    (rows : List (Row × Option String)) :
    handle_file link sink rows =
      ⟨(batchDelta link sink rows).sent, (batchDelta link sink rows).skip,
       header :: (batchDelta link sink rows).logs⟩ := by
  rw [handle_file, foldl_rowStep]
  simp

theorem batchDelta_append (link : String) (sink : String → String → Resp)
    (r1 r2 : List (Row × Option String)) :
    batchDelta link sink (r1 ++ r2) =
      ⟨(batchDelta link sink r1).sent + (batchDelta link sink r2).sent,
       (batchDelta link sink r1).skip + (batchDelta link sink r2).skip,
       (batchDelta link sink r1).logs ++ (batchDelta link sink r2).logs⟩ := by
  induction r1 with
  | nil => simp [batchDelta]
  | cons r rs ih => simp [batchDelta, ih, Nat.add_assoc, List.append_assoc]

theorem batchDelta_count (link : String) (sink : String → String → Resp)
    (rows : List (Row × Option String)) :
    (batchDelta link sink rows).sent + (batchDelta link sink rows).skip = rows.length := by
  induction rows with
  | nil => rfl
  | cons r rs ih =>
    have h := rowDelta_count link sink r
    simp only [batchDelta, List.length_cons]
    omega

theorem rowBodyV_B (link : String) (sink : String → String → Resp) (row : Row) :
    rowBodyV Variant.B link sink row = rowBody link sink row := by
  unfold rowBodyV rowBody
  cases hcm : clean_mobile (pyStr row.mobileNo) with
  | none => rfl
  | some m =>
    simp only [eligible]
    by_cases hp : payableOf row ≤ 0
    · simp [hp, not_lt.mpr hp]
    · simp [hp, not_le.mp hp]

/-! ## Claims C4, C5, C7, C9 -/

/-- Valid mobile, overdue 0, EDI 500, advance 0: payable 500 > 0 but the
overdue gate of Variant A fires. -/
def rowC4 : Row := ⟨.str "9876543210", .num 0, .num 500, .num 0, .null, .null⟩

/-- Valid mobile with payable = -5 ≤ 0. -/
def rowNegPay : Row := ⟨.str "9876543210", .num 0, .num 0, .num 5, .null, .null⟩

/-- C4: under the Variant A (overdue-gated) configuration a row is skipped
whenever overdue ≤ 0 and whenever payable ≤ 0; the row with overdue=0,
edi=500, advance=0 is skipped although its payable 500 is positive; and the
variant is an explicit configuration flag whose B setting coincides with the
code in src/bot/main.py. -/
theorem C4_variantA :
    (∀ (link : String) (sink : String → String → Resp) (row : Row),
      to_num row.overDue ≤ 0 → rowBodyV Variant.A link sink row = ⟨0, 1, []⟩) ∧
    (∀ (link : String) (sink : String → String → Resp) (row : Row),
      payableOf row ≤ 0 → rowBodyV Variant.A link sink row = ⟨0, 1, []⟩) ∧
    (rowBodyV Variant.A "L" (sinkOf none) rowC4 = ⟨0, 1, []⟩ ∧
      payableOf rowC4 = 500 ∧ (0 : ℚ) < 500) ∧
    (∀ (link : String) (sink : String → String → Resp) (row : Row),
      rowBodyV Variant.B link sink row = rowBody link sink row) := by
  have h1 : ∀ (link : String) (sink : String → String → Resp) (row : Row),
      to_num row.overDue ≤ 0 → rowBodyV Variant.A link sink row = ⟨0, 1, []⟩ := by
    intro link sink row h
    unfold rowBodyV
    cases hcm : clean_mobile (pyStr row.mobileNo) with
    | none => rfl
    | some m => simp [eligible, not_lt.mpr h]
  have h2 : ∀ (link : String) (sink : String → String → Resp) (row : Row),
      payableOf row ≤ 0 → rowBodyV Variant.A link sink row = ⟨0, 1, []⟩ := by
    intro link sink row h
    unfold rowBodyV
    cases hcm : clean_mobile (pyStr row.mobileNo) with
    | none => rfl
    | some m => simp [eligible, not_lt.mpr h]
  refine ⟨h1, h2, ⟨?_, ?_, by norm_num⟩, rowBodyV_B⟩
  · exact h1 "L" (sinkOf none) rowC4 (by show (0 : ℚ) ≤ 0; norm_num)
  · show (500 : ℚ) + 0 - 0 = 500
    norm_num

/-- C4 witness: the overdue-gate clause at the concrete overdue-zero row and
the payable clause at a concrete negative-payable row. -/
theorem C4_variantA_witness :
    rowBodyV Variant.A "L" (sinkOf none) rowC4 = ⟨0, 1, []⟩ ∧
    rowBodyV Variant.A "L" (sinkOf none) rowNegPay = ⟨0, 1, []⟩ :=
  ⟨C4_variantA.1 "L" (sinkOf none) rowC4 (by show (0 : ℚ) ≤ 0; norm_num),
   C4_variantA.2.1 "L" (sinkOf none) rowNegPay (by show (0 : ℚ) + 0 - 5 ≤ 0; norm_num)⟩

/-- Valid mobile, overdue 0, EDI 500, advance 0 (payable 500). -/
def rowC5 : Row := ⟨.str "9876543210", .num 0, .num 500, .num 0, .null, .null⟩

/-- C5: under the Variant B (payable-only) rule — the rule of the code in
src/bot/main.py — a row with a valid mobile is skipped as not eligible (the
silent skip, no log line) exactly when payable ≤ 0; there is no separate
overdue check. -/
theorem C5_payable_only :
    (∀ od p : ℚ, eligible Variant.B od p = false ↔ p ≤ 0) ∧
    (∀ (link : String) (sink : String → String → Resp) (row : Row) (m : String),
      clean_mobile (pyStr row.mobileNo) = some m →
      (rowBody link sink row = ⟨0, 1, []⟩ ↔ payableOf row ≤ 0)) := by
  constructor
  · intro od p
    simp [eligible]
  · intro link sink row m hm
    constructor
    · intro h
      by_contra hp
      cases hs : (sink m (msgOf link row)).error with
      | none =>
        rw [rowBody_sent link sink row m hm hp hs] at h
        simp at h
      | some err =>
        rw [rowBody_delivErr link sink row m err hm hp hs] at h
        simp at h
    · intro hp
      exact rowBody_notEligible link sink row m hm hp

/-- C5 witness: the concrete overdue-zero, payable-500 row with a valid
mobile is not skipped by eligibility. -/
theorem C5_payable_only_witness :
    rowBody "L" (sinkOf none) rowC5 = ⟨0, 1, []⟩ ↔ payableOf rowC5 ≤ 0 :=
  C5_payable_only.2 "L" (sinkOf none) rowC5 "9876543210" rfl

/-- C7: an unexpected exception in one row is recorded as a skip carrying
the error text in the log, and the rows before and after contribute exactly
what they would contribute on their own, in order — the batch is never
aborted by a single bad row. -/
theorem C7_fault_isolation :
    ∀ (link : String) (sink : String → String → Resp)
      (pre post : List (Row × Option String)) (row : Row) (e : String),
      handle_file link sink (pre ++ (row, some e) :: post) =
        ⟨(batchDelta link sink pre).sent + (batchDelta link sink post).sent,
         (batchDelta link sink pre).skip + 1 + (batchDelta link sink post).skip,
         header :: ((batchDelta link sink pre).logs ++
           errLine (pyStr row.customerName) (pyStr row.mobileNo) e ::
             (batchDelta link sink post).logs)⟩ := by
  intro link sink pre post row e
  rw [handle_file_eq, batchDelta_append]
  simp only [batchDelta, rowDelta]
  simp [Nat.add_assoc]

/-- C9: every processed row increments exactly one of the two counters, the
counters always sum to the number of input rows, and a row counts as sent
exactly when it has a valid mobile, positive payable, and a delivery
response without an "error" key. -/
theorem C9_counters :
    (∀ (link : String) (sink : String → String → Resp) (r : Row × Option String),
      (rowDelta link sink r).sentInc + (rowDelta link sink r).skipInc = 1) ∧
    (∀ (link : String) (sink : String → String → Resp) (rows : List (Row × Option String)),
      (handle_file link sink rows).sent + (handle_file link sink rows).skip = rows.length) ∧
    (∀ (link : String) (sink : String → String → Resp) (row : Row),
      (rowDelta link sink (row, none)).sentInc = 1 ↔
        ∃ m, clean_mobile (pyStr row.mobileNo) = some m ∧ 0 < payableOf row ∧
          (sink m (msgOf link row)).error = none) := by
  refine ⟨rowDelta_count, ?_, ?_⟩
  · intro link sink rows
    rw [handle_file_eq]
    exact batchDelta_count link sink rows
  · intro link sink row
    show (rowBody link sink row).sentInc = 1 ↔ _
    constructor
    · intro h
      cases hcm : clean_mobile (pyStr row.mobileNo) with
      | none =>
        rw [rowBody_invalid link sink row hcm] at h
        simp at h
      | some m =>
        by_cases hp : payableOf row ≤ 0
        · rw [rowBody_notEligible link sink row m hcm hp] at h
          simp at h
        · cases hs : (sink m (msgOf link row)).error with
          | some err =>
            rw [rowBody_delivErr link sink row m err hcm hp hs] at h
            simp at h
          | none => exact ⟨m, rfl, not_le.mp hp, hs⟩
    · rintro ⟨m, hcm, hp, hs⟩
      rw [rowBody_sent link sink row m hcm (not_le.mpr hp) hs]

/-- A one-row batch used to instantiate the counter invariant. -/
def batchC9 : List (Row × Option String) :=
  [(⟨.str "5123456789", .null, .null, .null, .null, .null⟩, none)]

/-- C9 witness: the counter-sum clause at a concrete one-row batch. -/
theorem C9_counters_witness :
    (handle_file "L" (sinkOf none) batchC9).sent +
      (handle_file "L" (sinkOf none) batchC9).skip = batchC9.length :=
  C9_counters.2.1 "L" (sinkOf none) batchC9

/-! ## Claims C8, C10 -/

/-- Valid mobile, eligible (payable 500), named Alice. -/
def rowOk : Row := ⟨.str "9876543210", .num 0, .num 500, .num 0, .str "Alice", .str "LN1"⟩

/-- Invalid phone (three digits). -/
def rowBadPhone : Row := ⟨.str "123", .num 100, .num 50, .num 0, .str "Bob", .str "LN2"⟩

/-- Valid mobile but payable 0. -/
def rowZeroPay : Row := ⟨.str "9123456789", .num 0, .num 0, .num 0, .str "Cara", .str "LN3"⟩

/-- The 3-row batch of the end-to-end example: one valid eligible row, one
invalid-phone row, one zero-payable row, no exceptions. -/
def batch3 : List (Row × Option String) := [(rowOk, none), (rowBadPhone, none), (rowZeroPay, none)]

theorem handle_file_batch3 :
    handle_file "L" (sinkOf none) batch3 =
      ⟨1, 2, [header, sentLine "Alice" "9876543210"]⟩ := by
  have hp1 : ¬payableOf rowOk ≤ 0 := by
    show ¬((500 : ℚ) + 0 - 0 ≤ 0)
    norm_num
  have h1 := rowBody_sent "L" (sinkOf none) rowOk "9876543210" rfl hp1 rfl
  have h2 := rowBody_invalid "L" (sinkOf none) rowBadPhone rfl
  have hp3 : payableOf rowZeroPay ≤ 0 := by
    show (0 : ℚ) + 0 - 0 ≤ 0
    norm_num
  have h3 := rowBody_notEligible "L" (sinkOf none) rowZeroPay "9123456789" rfl hp3
  rw [handle_file_eq]
  simp only [batch3, batchDelta, rowDelta]
  rw [h1, h2, h3]
  decide

/-- C8 counterexample: on the 3-row example batch the code yields
sentCount 1 and skipCount 2 but only ONE per-row log line (the ✅ line of the
sent row), not one line per row: invalid-mobile and non-eligible skips
produce no log line, refuting "one line per row ... three log lines". -/
theorem C8_batch_report_cex :
    (handle_file "L" (sinkOf none) batch3).sent = 1 ∧
    (handle_file "L" (sinkOf none) batch3).skip = 2 ∧
    batch3.length = 3 ∧
    ((handle_file "L" (sinkOf none) batch3).logs.drop 1).length = 1 ∧
    ¬((handle_file "L" (sinkOf none) batch3).logs.drop 1).length = batch3.length := by
  rw [handle_file_batch3]
  decide

/-- C8 amended: after processing all rows the batch yields sentCount,
skipCount and the log lines in original input row order, but a log line is
emitted only for rows that reach the delivery stage (Sent or delivery
Error) or raise an exception — for every row, an invalid mobile or a
non-positive payable is counted as a skip with NO log line, a delivered row
emits exactly its one ✅ line, a delivery error exactly its one ❌ line, an
exception row exactly its one ❌ line; log lines appear in input order; and
the 3-row example yields sentCount=1, skipCount=2 and exactly one per-row
log line, the ✅ line of the sent row. -/
theorem C8_batch_report_amended :
    (∀ (link : String) (sink : String → String → Resp) (row : Row),
      clean_mobile (pyStr row.mobileNo) = none →
      rowBody link sink row = ⟨0, 1, []⟩) ∧
    (∀ (link : String) (sink : String → String → Resp) (row : Row) (m : String),
      clean_mobile (pyStr row.mobileNo) = some m → payableOf row ≤ 0 →
      rowBody link sink row = ⟨0, 1, []⟩) ∧
    (∀ (link : String) (sink : String → String → Resp) (row : Row) (m : String),
      clean_mobile (pyStr row.mobileNo) = some m → ¬payableOf row ≤ 0 →
      ((sink m (msgOf link row)).error = none →
        rowBody link sink row = ⟨1, 0, [sentLine (pyStr row.customerName) m]⟩) ∧
      (∀ err, (sink m (msgOf link row)).error = some err →
        rowBody link sink row = ⟨0, 1, [errLine (pyStr row.customerName) m err]⟩)) ∧
    (∀ (link : String) (sink : String → String → Resp) (row : Row) (e : String),
      rowDelta link sink (row, some e) =
        ⟨0, 1, [errLine (pyStr row.customerName) (pyStr row.mobileNo) e]⟩) ∧
    (∀ (link : String) (sink : String → String → Resp)
      (r1 r2 : List (Row × Option String)),
      (batchDelta link sink (r1 ++ r2)).logs =
        (batchDelta link sink r1).logs ++ (batchDelta link sink r2).logs) ∧
    handle_file "L" (sinkOf none) batch3 =
      ⟨1, 2, [header, sentLine "Alice" "9876543210"]⟩ := by
  refine ⟨rowBody_invalid, rowBody_notEligible, ?_, ?_, ?_, handle_file_batch3⟩
  · intro link sink row m hm hp
    exact ⟨fun hs => rowBody_sent link sink row m hm hp hs,
      fun err hs => rowBody_delivErr link sink row m err hm hp hs⟩
  · intro link sink row e
    rfl
  · intro link sink r1 r2
    rw [batchDelta_append]

/-- C8 witness: the hypothesis-bearing clauses of the amended theorem at the
concrete rows of the example batch — the invalid-phone row and zero-payable
row skip with no log line, and the sent row emits exactly its ✅ line. -/
theorem C8_batch_report_amended_witness :
    rowBody "L" (sinkOf none) rowBadPhone = ⟨0, 1, []⟩ ∧
    rowBody "L" (sinkOf none) rowZeroPay = ⟨0, 1, []⟩ ∧
    rowBody "L" (sinkOf none) rowOk =
      ⟨1, 0, [sentLine (pyStr rowOk.customerName) "9876543210"]⟩ := by
  refine ⟨C8_batch_report_amended.1 "L" (sinkOf none) rowBadPhone rfl,
    C8_batch_report_amended.2.1 "L" (sinkOf none) rowZeroPay "9123456789" rfl
      (by show (0 : ℚ) + 0 - 0 ≤ 0; norm_num),
    (C8_batch_report_amended.2.2.1 "L" (sinkOf none) rowOk "9876543210" rfl
      (by show ¬((500 : ℚ) + 0 - 0 ≤ 0); norm_num)).1 rfl⟩

/-- Valid mobile, payable 500, both name and loan cells null. -/
def rowC10 : Row := ⟨.str "9876543210", .num 0, .num 500, .num 0, .null, .null⟩

/-- C10: for a row whose customer-name and loan-account cells are null, the
rendered message substitutes the literals "Customer" and "—", while every
log line (Sent, delivery Error, and row-exception) carries the raw
stringified cell "None" instead. -/
theorem C10_default_mismatch :
    ∀ (link : String) (sink : String → String → Resp) (row : Row) (m e err : String),
      row.customerName = Cell.null → row.loanAcNo = Cell.null →
      (msgOf link row = build_msg "Customer" "—" (to_num row.advance)
        (to_num row.ediAmount) (to_num row.overDue) (payableOf row) link) ∧
      (clean_mobile (pyStr row.mobileNo) = some m → ¬payableOf row ≤ 0 →
        ((sink m (msgOf link row)).error = none →
          (rowBody link sink row).logs = [sentLine "None" m]) ∧
        ((sink m (msgOf link row)).error = some err →
          (rowBody link sink row).logs = [errLine "None" m err])) ∧
      (rowDelta link sink (row, some e)).logs =
        [errLine "None" (pyStr row.mobileNo) e] := by
  intro link sink row m e err hname hloan
  refine ⟨?_, ?_, ?_⟩
  · simp only [msgOf, pyOr, hname, hloan, Cell.truthy]
    rfl
  · intro hcm hp
    constructor
    · intro hs
      rw [rowBody_sent link sink row m hcm hp hs, hname]
      rfl
    · intro hs
      rw [rowBody_delivErr link sink row m err hcm hp hs, hname]
      rfl
  · simp only [rowDelta]
    rw [hname]
    rfl

/-- C10 witness: the three mismatch clauses at a concrete null-name,
null-loan row, with a clean delivery, a failing delivery, and a row
exception. -/
theorem C10_default_mismatch_witness :
    msgOf "L" rowC10 = build_msg "Customer" "—" (to_num rowC10.advance)
      (to_num rowC10.ediAmount) (to_num rowC10.overDue) (payableOf rowC10) "L" ∧
    (rowBody "L" (sinkOf none) rowC10).logs = [sentLine "None" "9876543210"] ∧
    (rowBody "L" (sinkOf (some "boom")) rowC10).logs =
      [errLine "None" "9876543210" "boom"] ∧
    (rowDelta "L" (sinkOf none) (rowC10, some "crash")).logs =
      [errLine "None" (pyStr rowC10.mobileNo) "crash"] := by
  have hp : ¬payableOf rowC10 ≤ 0 := by
    show ¬((500 : ℚ) + 0 - 0 ≤ 0)
    norm_num
  have h1 := C10_default_mismatch "L" (sinkOf none) rowC10 "9876543210" "crash" "boom" rfl rfl
  have h2 := C10_default_mismatch "L" (sinkOf (some "boom")) rowC10 "9876543210" "crash" "boom"
    rfl rfl
  exact ⟨h1.1, (h1.2.1 rfl hp).1 rfl, (h2.2.1 rfl hp).2 rfl, h1.2.2⟩

end WtsapReminder
